import Mathlib

/-!  Shallow embedding of the AWS demo CLI (examples/aws_cli.py).

Each command handler is modelled as a pure function from its parsed
command-line arguments (and, for the listing commands, from the record set
returned by the external account API) to the console lines it prints and
the parameter set it forwards to the external library call, if any.
External collaborators (the account, log and forensics capabilities) are
opaque: a handler's result records the exact parameter set handed to them.
Absent optional string arguments (Python None) are modelled as the empty
string, matching the Python truthiness tests applied to them.  -/

namespace AwsCli

/-- Python s.split(sep) with an explicit one-character separator, on
character lists: empty parts are kept, and splitting the empty string
yields a single empty part. -/
def pySplitChars (sep : Char) : List Char → List (List Char)
  | [] => [[]]
  | c :: cs =>
    if c = sep then [] :: pySplitChars sep cs
    else
      match pySplitChars sep cs with
      | p :: ps => (c :: p) :: ps
      | [] => [[c]]

/-- Python s.split(sep) on strings. -/
def pySplit (s : String) (sep : Char) : List String :=
  (pySplitChars sep s.data).map (fun p => ⟨p⟩)

/-- Value of an ASCII digit. -/
def digitVal (c : Char) : Nat := c.toNat - 48

/-- Remaining digits of a Python integer literal: digits with single
underscores allowed between digits. -/
def pyIntLoop : List Char → Nat → Option Nat
  | [], acc => some acc
  | c :: r, acc =>
    if c.isDigit then pyIntLoop r (acc * 10 + digitVal c)
    else if c = '_' then
      match r with
      | d :: r2 => if d.isDigit then pyIntLoop r2 (acc * 10 + digitVal d) else none
      | [] => none
    else none

/-- A nonempty digit run (body of a Python int literal after the sign). -/
def pyIntCore : List Char → Option Nat
  | c :: r => if c.isDigit then pyIntLoop r (digitVal c) else none
  | [] => none

/-- The whitespace characters Python int() strips from both ends. -/
def isPyWs (c : Char) : Bool :=
  c == ' ' || c == '\t' || c == '\n' || c == '\r' || c == '\x0b' || c == '\x0c'

def dropLeadingWs : List Char → List Char
  | c :: r => if isPyWs c then dropLeadingWs r else c :: r
  | [] => []

/-- Python int(str): optional surrounding whitespace, an optional sign and a
nonempty digit run (single underscores allowed between digits); none models
the ValueError raised on any other input.  (Non-ASCII digits, accepted by
CPython, are outside the model.) -/
def pyInt (s : String) : Option Int :=
  let l := (dropLeadingWs (dropLeadingWs s.data).reverse).reverse
  match l with
  | '-' :: r => (pyIntCore r).map (fun n => -(n : Int))
  | '+' :: r => (pyIntCore r).map (fun n => (n : Int))
  | _ => (pyIntCore l).map (fun n => (n : Int))

/-- The argparse namespace fields read by StartAnalysisVm.  disk_size and
cpu_cores arrive as command-line strings and are converted with int() at the
call site, exactly as in the source. -/
structure StartVmArgs where
  instance_name : String
  zone : String
  disk_size : String
  cpu_cores : String
  ami : String
  ssh_key_name : String
  attach_volumes : String
deriving Repr, DecidableEq

/-- The keyword-argument set forwarded to forensics.StartAnalysisVm. -/
structure StartVmCall where
  vm_name : String
  default_availability_zone : String
  boot_volume_size : Int
  cpu_cores : Int
  ami : String
  ssh_key_name : String
  attach_volumes : List (String × String)
deriving Repr, DecidableEq

/-- How an invocation of the StartAnalysisVm handler ends:
a validated early return after a printed error, an unhandled exception
(int() failing on disk_size or cpu_cores), or the external VM-start call
with its forwarded parameter set. -/
inductive VmOutcome where
  | earlyReturn
  | exn (msg : String)
  | call (c : StartVmCall)
deriving Repr, DecidableEq

/-- Printed lines (up to the point the external call is issued) together
with the outcome of the handler. -/
structure StartVmRun where
  prints : List String
  outcome : VmOutcome
deriving Repr, DecidableEq

/-- The device-name assignment loop: device_letter starts at ord f = 102
and each volume id is paired with /dev/sd plus chr(device_letter),
the letter incrementing once per volume. -/
def assignDevices : Nat → List String → List (String × String)
  | _, [] => []
  | letter, v :: vs =>
    (v, "/dev/sd".push (Char.ofNat letter)) :: assignDevices (letter + 1) vs

/-- The StartAnalysisVm handler.  Mirrors the source: first the guard
`args.attach_volumes and len(args.attach_volumes) > 11` (note: the length
of the raw string), then, when the list is supplied, the split on commas and
the check that no entry is empty (each failure printing a message and
returning early), then the device-name assignment and the external call
with int() applied to disk_size and cpu_cores.  The lines printed after the
external call format that call's result and are not part of the model. -/
def StartAnalysisVm (args : StartVmArgs) : StartVmRun :=
  if args.attach_volumes ≠ "" ∧ args.attach_volumes.length > 11 then
    { prints := ["error: --attach_volumes must be < 11"], outcome := .earlyReturn }
  else if args.attach_volumes ≠ "" ∧
      ¬(pySplit args.attach_volumes ',' ≠ [] ∧
        ∀ e ∈ pySplit args.attach_volumes ',', e ≠ "") then
    { prints := ["error: parameter --attach_volumes: " ++ args.attach_volumes],
      outcome := .earlyReturn }
  else
    match pyInt args.disk_size, pyInt args.cpu_cores with
    | some d, some cc =>
      { prints := ["Starting analysis VM..."],
        outcome := .call
          { vm_name := args.instance_name
            default_availability_zone := args.zone
            boot_volume_size := d
            cpu_cores := cc
            ami := args.ami
            ssh_key_name := args.ssh_key_name
            attach_volumes :=
              if args.attach_volumes ≠ "" then
                assignDevices 102 (pySplit args.attach_volumes ',')
              else [] } }
    | _, _ =>
      { prints := ["Starting analysis VM..."],
        outcome := .exn "ValueError: invalid literal for int with base 10" }

/-- The ListInstances handler's console output, as a function of the
external listing result: one (instance id, boot volume id) pair per
instance, in the iteration order of the returned mapping.  A header line is
printed first, then one formatted line per record. -/
def ListInstances (instances : List (String × String)) : List String :=
  "Instances found:" ::
    instances.map (fun p => "Name: " ++ p.1 ++ ", Boot volume: " ++ p.2)

/-- The ListVolumes handler's console output, as a function of the external
listing result: one (volume id, availability zone) pair per volume. -/
def ListVolumes (volumes : List (String × String)) : List String :=
  "Volumes found:" ::
    volumes.map (fun p => "Name: " ++ p.1 ++ ", Zone: " ++ p.2)

/-- One AMI record as read by ListImages (the Name, ImageId and
ImageLocation fields of the returned dictionary). -/
structure ImageRec where
  name : String
  imageId : String
  imageLocation : String
deriving Repr, DecidableEq

/-- The ListImages handler's console output, as a function of the external
listing result.  Unlike ListInstances and ListVolumes, the source prints no
header line before the loop. -/
def ListImages (images : List ImageRec) : List String :=
  images.map (fun i =>
    "Name: " ++ i.name ++ ", ImageId: " ++ i.imageId ++
      ", Location: " ++ i.imageLocation)

/-! ##  json.loads model for the tags argument

A recursive-descent parser for the subset of JSON the tags blob uses: a
single flat object whose keys and values are strings without escape
sequences, with optional JSON whitespace between tokens.  The result is the
object's key/value pairs in textual order; none models the JSONDecodeError
raised on malformed input. -/

def lbrace : Char := Char.ofNat 123

def rbrace : Char := Char.ofNat 125

def isJsonWs (c : Char) : Bool :=
  c == ' ' || c == '\t' || c == '\n' || c == '\r'

def skipJsonWs : List Char → List Char
  | c :: r => if isJsonWs c then skipJsonWs r else c :: r
  | [] => []

/-- Body of a JSON string after the opening quote: plain characters up to
the closing quote (no escape sequences in the modelled subset). -/
def jStringBody : List Char → Option (List Char × List Char)
  | [] => none
  | c :: r =>
    if c = '"' then some ([], r)
    else if c = '\\' then none
    else
      match jStringBody r with
      | some (s, rest) => some (c :: s, rest)
      | none => none

/-- A JSON string token: opening quote, body, closing quote. -/
def jString : List Char → Option (String × List Char)
  | c :: r =>
    if c = '"' then
      match jStringBody r with
      | some (cs, rest) => some (⟨cs⟩, rest)
      | none => none
    else none
  | [] => none

/-- One key : value member of the object. -/
def jsonPair (l : List Char) : Option ((String × String) × List Char) :=
  match jString (skipJsonWs l) with
  | none => none
  | some (k, r) =>
    match skipJsonWs r with
    | c :: r2 =>
      if c = ':' then
        match jString (skipJsonWs r2) with
        | some (v, r3) => some ((k, v), r3)
        | none => none
      else none
    | [] => none

/-- A nonempty comma-separated member list (fuel bounds the recursion by
the input length). -/
def jsonPairsAux : Nat → List Char → Option (List (String × String) × List Char)
  | 0, _ => none
  | fuel + 1, l =>
    match jsonPair l with
    | none => none
    | some (kv, r) =>
      match skipJsonWs r with
      | c :: r2 =>
        if c = ',' then
          match jsonPairsAux fuel r2 with
          | some (kvs, rest) => some (kv :: kvs, rest)
          | none => none
        else some ([kv], c :: r2)
      | [] => some ([kv], [])

/-- json.loads restricted to a flat object of string keys and string
values: the whole input must be one object, surrounded only by
whitespace. -/
def jsonLoadsObj (s : String) : Option (List (String × String)) :=
  match skipJsonWs s.data with
  | c :: r =>
    if c = lbrace then
      match skipJsonWs r with
      | c2 :: r2 =>
        if c2 = rbrace then (if skipJsonWs r2 = [] then some [] else none)
        else
          match jsonPairsAux (s.data.length + 1) (c2 :: r2) with
          | some (kvs, rest) =>
            match skipJsonWs rest with
            | c3 :: r3 =>
              if c3 = rbrace ∧ skipJsonWs r3 = [] then some kvs else none
            | [] => none
          | none => none
      | [] => none
    else none
  | [] => none

/-- The argparse namespace fields read by CreateVolumeCopy (absent
optionals modelled as the empty string). -/
structure CreateVolumeCopyArgs where
  zone : String
  dst_zone : String
  instance_id : String
  volume_id : String
  src_profile : String
  dst_profile : String
  tags : String
deriving Repr, DecidableEq

/-- The parameter set forwarded to forensics.CreateVolumeCopy.  tags is the
parsed mapping, or none when the handler left the local variable at its
None initialisation. -/
structure VolumeCopyCall where
  zone : String
  dst_zone : String
  instance_id : String
  volume_id : String
  src_profile : String
  dst_profile : String
  tags : Option (List (String × String))
deriving Repr, DecidableEq

/-- The CreateVolumeCopy handler: prints the starting line, then parses the
tags blob with json.loads when one was supplied (a parse failure raising an
unhandled exception, modelled as the error branch), and forwards the
parameter set to the external call.  The confirmation line printed after
the external call formats that call's result and is not part of the
model. -/
def CreateVolumeCopy (args : CreateVolumeCopyArgs) :
    List String × Except String VolumeCopyCall :=
  (["Starting volume copy..."],
    if args.tags ≠ "" then
      match jsonLoadsObj args.tags with
      | some m =>
        .ok
          { zone := args.zone, dst_zone := args.dst_zone
            instance_id := args.instance_id, volume_id := args.volume_id
            src_profile := args.src_profile, dst_profile := args.dst_profile
            tags := some m }
      | none => .error "json.decoder.JSONDecodeError: Expecting value"
    else
      .ok
        { zone := args.zone, dst_zone := args.dst_zone
          instance_id := args.instance_id, volume_id := args.volume_id
          src_profile := args.src_profile, dst_profile := args.dst_profile
          tags := none })

/-! ##  datetime.strptime model for the fixed format the CLI uses

CPython compiles the format %Y-%m-%d %H:%M:%S to a regular expression
(four digits for %Y; ordered alternations such as 1[0-2], 0[1-9], [1-9]
for %m) that must consume the whole input, then passes the captured
fields to the datetime constructor, which range-checks them.  The
matchers below reproduce those alternations with their ordered
backtracking. -/

/-- Match one character in an inclusive range as a one-digit field. -/
def matchOne (lo hi : Char) : List Char → Option (Nat × List Char)
  | a :: r => if lo ≤ a ∧ a ≤ hi then some (digitVal a, r) else none
  | [] => none

/-- Match two characters, each in an inclusive range, as a two-digit
field. -/
def matchTwo (lo1 hi1 lo2 hi2 : Char) : List Char → Option (Nat × List Char)
  | a :: b :: r =>
    if lo1 ≤ a ∧ a ≤ hi1 ∧ lo2 ≤ b ∧ b ≤ hi2 then
      some (digitVal a * 10 + digitVal b, r)
    else none
  | _ => none

/-- The ordered alternatives of %m: 1[0-2], 0[1-9], [1-9]. -/
def altsMonth (l : List Char) : List (Nat × List Char) :=
  [matchTwo '1' '1' '0' '2' l, matchTwo '0' '0' '1' '9' l,
    matchOne '1' '9' l].filterMap id

/-- The ordered alternatives of %d: 3[01], [1-2][0-9], 0[1-9], [1-9]. -/
def altsDay (l : List Char) : List (Nat × List Char) :=
  [matchTwo '3' '3' '0' '1' l, matchTwo '1' '2' '0' '9' l,
    matchTwo '0' '0' '1' '9' l, matchOne '1' '9' l].filterMap id

/-- The ordered alternatives of %H: 2[0-3], [0-1][0-9], [0-9]. -/
def altsHour (l : List Char) : List (Nat × List Char) :=
  [matchTwo '2' '2' '0' '3' l, matchTwo '0' '1' '0' '9' l,
    matchOne '0' '9' l].filterMap id

/-- The ordered alternatives of %M: [0-5][0-9], [0-9]. -/
def altsMinute (l : List Char) : List (Nat × List Char) :=
  [matchTwo '0' '5' '0' '9' l, matchOne '0' '9' l].filterMap id

/-- The ordered alternatives of %S: 6[0-1], [0-5][0-9], [0-9]. -/
def altsSecond (l : List Char) : List (Nat × List Char) :=
  [matchTwo '6' '6' '0' '1' l, matchTwo '0' '5' '0' '9' l,
    matchOne '0' '9' l].filterMap id

/-- %Y: exactly four digits. -/
def matchYear : List Char → Option (Nat × List Char)
  | a :: b :: c :: d :: r =>
    if a.isDigit ∧ b.isDigit ∧ c.isDigit ∧ d.isDigit then
      some (((digitVal a * 10 + digitVal b) * 10 + digitVal c) * 10 +
        digitVal d, r)
    else none
  | _ => none

/-- A literal character of the format. -/
def lit (c : Char) : List Char → Option (List Char)
  | a :: r => if a = c then some r else none
  | [] => none

/-- First succeeding alternative, in order (regex alternation). -/
def firstSome {α} : List (Option α) → Option α
  | [] => none
  | some a :: _ => some a
  | none :: rest => firstSome rest

/-- %S anchored at the end of the input (strptime rejects trailing
characters). -/
def parseSecEnd (l : List Char) : Option Nat :=
  firstSome ((altsSecond l).map (fun p => if p.2 = [] then some p.1 else none))

def parseMinuteTail (l : List Char) : Option (Nat × Nat) :=
  firstSome ((altsMinute l).map (fun p =>
    (lit ':' p.2).bind (fun r => (parseSecEnd r).map (fun s => (p.1, s)))))

def parseHourTail (l : List Char) : Option (Nat × Nat × Nat) :=
  firstSome ((altsHour l).map (fun p =>
    (lit ':' p.2).bind (fun r => (parseMinuteTail r).map (fun ms => (p.1, ms)))))

def parseDayTail (l : List Char) : Option (Nat × Nat × Nat × Nat) :=
  firstSome ((altsDay l).map (fun p =>
    (lit ' ' p.2).bind (fun r => (parseHourTail r).map (fun hs => (p.1, hs)))))

def parseMonthTail (l : List Char) : Option (Nat × Nat × Nat × Nat × Nat) :=
  firstSome ((altsMonth l).map (fun p =>
    (lit '-' p.2).bind (fun r => (parseDayTail r).map (fun ds => (p.1, ds)))))

/-- The six captured fields of a full match of the compiled format
against the whole input. -/
def strptimeFields (s : String) :
    Option (Nat × Nat × Nat × Nat × Nat × Nat) :=
  (matchYear s.data).bind (fun p =>
    (lit '-' p.2).bind (fun r =>
      (parseMonthTail r).map (fun ms => (p.1, ms))))

/-- A naive datetime value (the fields the CLI's format carries). -/
structure PyDateTime where
  year : Nat
  month : Nat
  day : Nat
  hour : Nat
  minute : Nat
  second : Nat
deriving Repr, DecidableEq

def isLeapYear (y : Nat) : Bool :=
  y % 4 == 0 && (y % 100 != 0 || y % 400 == 0)

def daysInMonth (y m : Nat) : Nat :=
  if m = 2 then (if isLeapYear y then 29 else 28)
  else if m = 4 ∨ m = 6 ∨ m = 9 ∨ m = 11 then 30
  else 31

/-- The datetime constructor's range checks (year within MINYEAR..MAXYEAR,
a calendar-valid day, second at most 59 even though the regex admits leap
seconds). -/
def datetimeNew (y m d h mi se : Nat) : Option PyDateTime :=
  if 1 ≤ y ∧ y ≤ 9999 ∧ 1 ≤ m ∧ m ≤ 12 ∧ 1 ≤ d ∧ d ≤ daysInMonth y m ∧
      h ≤ 23 ∧ mi ≤ 59 ∧ se ≤ 59 then
    some ⟨y, m, d, h, mi, se⟩
  else none

/-- datetime.strptime(s, fixed format): none models the ValueError raised
on a failed match or an out-of-range field. -/
def pyStrptime (s : String) : Option PyDateTime :=
  match strptimeFields s with
  | some (y, m, d, h, mi, se) => datetimeNew y m d h mi se
  | none => none

/-- strptime as the exception-carrying computation the handler runs. -/
def strptimeExc (s : String) : Except String PyDateTime :=
  match pyStrptime s with
  | some dt => .ok dt
  | none =>
    .error ("ValueError: time data " ++ s ++
      " does not match format %Y-%m-%d %H:%M:%S")

def exceptIsError {ε α} : Except ε α → Bool
  | .error _ => true
  | .ok _ => false

/-- The argparse namespace fields read by QueryLogs (absent optionals
modelled as the empty string; end is a Lean keyword, hence end_). -/
structure QueryLogsArgs where
  zone : String
  filter : String
  start : String
  end_ : String
deriving Repr, DecidableEq

/-- The optional-parameter bag QueryLogs builds: each key is present
exactly when the corresponding argument was supplied. -/
structure QueryParams where
  qfilter : Option String
  starttime : Option PyDateTime
  endtime : Option PyDateTime
deriving Repr, DecidableEq

/-- The external LookupEvents call: the account zone the CloudTrail client
was built from, and the keyword parameters splatted into the call. -/
structure LookupCall where
  zone : String
  params : QueryParams
deriving Repr, DecidableEq

/-- The QueryLogs handler up to the external call: builds the parameter
bag in source order (qfilter, then starttime, then endtime, each only if
the argument was supplied), a strptime failure propagating as an unhandled
exception before any call is made.  The count and per-event lines printed
after the call format that call's result and are not part of the model. -/
def QueryLogs (args : QueryLogsArgs) : Except String LookupCall :=
  let qfilter := if args.filter ≠ "" then some args.filter else none
  match (if args.start ≠ "" then Except.map some (strptimeExc args.start)
      else .ok none) with
  | .error e => .error e
  | .ok starttime =>
    match (if args.end_ ≠ "" then Except.map some (strptimeExc args.end_)
        else .ok none) with
    | .error e => .error e
    | .ok endtime =>
      .ok
        { zone := args.zone
          params :=
            { qfilter := qfilter, starttime := starttime, endtime := endtime } }

/-!  Model sanity checks: the split, int, json and strptime models on the
concrete behaviours of their Python counterparts.  -/

theorem pySplit_checks :
    pySplit "v1,v2,v3" ',' = ["v1", "v2", "v3"] ∧
    pySplit "" ',' = [""] ∧
    pySplit "a,,b" ',' = ["a", "", "b"] := by decide

theorem pyInt_checks :
    pyInt "50" = some 50 ∧ pyInt " -1_2 " = some (-12) ∧ pyInt "x" = none := by
  decide

theorem jsonLoadsObj_checks :
    jsonLoadsObj " \x7b \"project\" : \"forensics\" , \"case\" : \"123\" \x7d " =
      some [("project", "forensics"), ("case", "123")] ∧
    jsonLoadsObj "\x7b\x7d" = some [] ∧
    jsonLoadsObj "" = none ∧
    jsonLoadsObj "\x7b\"a\":\"b\"" = none := by decide

theorem pyStrptime_checks :
    pyStrptime "2020-01-01 00:00:00" = some ⟨2020, 1, 1, 0, 0, 0⟩ ∧
    pyStrptime "2020-2-29 23:59:59" = some ⟨2020, 2, 29, 23, 59, 59⟩ ∧
    pyStrptime "2019-02-29 00:00:00" = none ∧
    pyStrptime "2020-13-01 00:00:00" = none ∧
    pyStrptime "not-a-date" = none ∧
    pyStrptime "2020-01-01 00:00:00x" = none := by decide

/-! ##  Facts about the split model -/

theorem pySplitChars_ne_nil (sep : Char) : ∀ l : List Char, pySplitChars sep l ≠ []
  | [] => by simp [pySplitChars]
  | c :: cs => by
    simp only [pySplitChars]
    split
    · simp
    · split
      · simp
      · simp

theorem pySplitChars_sum (sep : Char) : ∀ l : List Char,
    ((pySplitChars sep l).map List.length).sum + (pySplitChars sep l).length
      = l.length + 1
  | [] => by simp [pySplitChars]
  | c :: cs => by
    have ih := pySplitChars_sum sep cs
    simp only [pySplitChars]
    split
    · simp only [List.map_cons, List.sum_cons, List.length_cons, List.length_nil]
      omega
    · split
      · next p ps heq =>
        rw [heq] at ih
        simp only [List.map_cons, List.sum_cons, List.length_cons] at ih ⊢
        omega
      · next heq => exact absurd heq (pySplitChars_ne_nil sep cs)

theorem length_le_sum_of_pos : ∀ l : List Nat, (∀ x ∈ l, 1 ≤ x) → l.length ≤ l.sum
  | [], _ => Nat.le_refl 0
  | x :: xs, h => by
    have ih := length_le_sum_of_pos xs (fun y hy => h y (List.mem_cons_of_mem _ hy))
    have hx := h x (List.mem_cons_self _ _)
    simp only [List.length_cons, List.sum_cons]
    omega

theorem mk_ne_empty_iff {p : List Char} : (⟨p⟩ : String) ≠ "" ↔ p ≠ [] := by
  constructor
  · intro h hp
    exact h (by rw [hp])
  · intro h hs
    exact h (congrArg String.data hs)

/-- An attach_volumes string of length at most 11 whose comma-separated
entries are all nonempty has at most 6 entries (each entry costs at least
one character and each boundary a comma). -/
theorem pySplit_count_le_six {s : String} (hlen : s.length ≤ 11)
    (hall : ∀ e ∈ pySplit s ',', e ≠ "") :
    (pySplit s ',').length ≤ 6 := by
  have hsum := pySplitChars_sum ',' s.data
  have hpos : ∀ x ∈ (pySplitChars ',' s.data).map List.length, 1 ≤ x := by
    intro x hx
    rcases List.mem_map.mp hx with ⟨p, hp, rfl⟩
    have hne : (⟨p⟩ : String) ≠ "" := hall ⟨p⟩ (List.mem_map_of_mem _ hp)
    have hpn := mk_ne_empty_iff.mp hne
    cases p with
    | nil => exact absurd rfl hpn
    | cons a as => simp
  have h1 := length_le_sum_of_pos _ hpos
  rw [List.length_map] at h1
  have hcount : (pySplit s ',').length = (pySplitChars ',' s.data).length := by
    simp [pySplit]
  have hlen2 : s.data.length = s.length := rfl
  omega

/-- Every device name the assignment loop produces is /dev/sd followed by
one letter from the run starting at the loop's initial letter code. -/
theorem assignDevices_mem :
    ∀ (a : Nat) (vs : List String) (p : String × String),
      p ∈ assignDevices a vs →
      ∃ k, a ≤ k ∧ k < a + vs.length ∧ p.2 = "/dev/sd".push (Char.ofNat k)
  | _, [], p, h => absurd h (List.not_mem_nil p)
  | a, v :: vs, p, h => by
    simp only [assignDevices, List.mem_cons] at h
    rcases h with h | h
    · exact ⟨a, Nat.le_refl a, by simp, by rw [h]⟩
    · rcases assignDevices_mem (a + 1) vs p h with ⟨k, hk1, hk2, hk3⟩
      refine ⟨k, by omega, ?_, hk3⟩
      simp only [List.length_cons]
      omega

/-- The device names AWS recommends: /dev/sdf through /dev/sdp. -/
def deviceNames : List String :=
  ["/dev/sdf", "/dev/sdg", "/dev/sdh", "/dev/sdi", "/dev/sdj", "/dev/sdk",
    "/dev/sdl", "/dev/sdm", "/dev/sdn", "/dev/sdo", "/dev/sdp"]

/-! ##  Claim theorems -/

/-- Claim C1 (code bug): the guard compares the LENGTH OF THE RAW STRING
with 11, not the number of comma-separated entries.  The input
vol-111,vol-222 has exactly 2 entries, both nonempty, so per the claim
(and per the code's own error message, which caps the number of attached
volumes, and its /dev/sd[f-p] device-letter comment) it must be accepted;
the handler instead prints the error and returns without calling the
external VM-start operation.  Any real AWS volume id alone is longer than
11 characters, so the intended feature is unusable as coded. -/
theorem startAnalysisVm_string_length_bug :
    (pySplit "vol-111,vol-222" ',').length = 2 ∧
    (∀ e ∈ pySplit "vol-111,vol-222" ',', e ≠ "") ∧
    StartAnalysisVm
        { instance_name := "analysis-vm", zone := "us-east-1a",
          disk_size := "50", cpu_cores := "2", ami := "ami-0123",
          ssh_key_name := "key", attach_volumes := "vol-111,vol-222" } =
      { prints := ["error: --attach_volumes must be < 11"],
        outcome := .earlyReturn } := by
  refine ⟨by decide, by decide, by decide⟩

/-- Claim C2, counterexample: on an empty external result set, ListImages
prints nothing at all — in particular not exactly one header line — so the
claim that each of the three listing commands prints exactly the header
line on an empty result is false for ListImages. -/
theorem listImages_empty_prints_nothing :
    ListImages ([] : List ImageRec) = [] ∧
      (ListImages ([] : List ImageRec)).length ≠ 1 := by
  exact ⟨rfl, by decide⟩

/-- Claim C2, amended: on an empty external result set, ListInstances and
ListVolumes print exactly their header line and no per-record lines, while
ListImages (which has no header in the source) prints no lines at all. -/
theorem listing_commands_empty_result :
    ListInstances [] = ["Instances found:"] ∧
    ListVolumes [] = ["Volumes found:"] ∧
    ListImages ([] : List ImageRec) = [] :=
  ⟨rfl, rfl, rfl⟩

/-- Claim C3: an attach_volumes argument with 11 or more comma-separated
entries always makes the handler print one of its two error messages and
return early, before the external VM-start call (11 nonempty entries force
a string longer than 11 characters, tripping the first guard; 11 entries
within 11 characters force an empty entry, tripping the second). -/
theorem startAnalysisVm_rejects_eleven_entries (args : StartVmArgs)
    (h : 11 ≤ (pySplit args.attach_volumes ',').length) :
    (StartAnalysisVm args).outcome = .earlyReturn ∧
      ((StartAnalysisVm args).prints = ["error: --attach_volumes must be < 11"] ∨
        (StartAnalysisVm args).prints =
          ["error: parameter --attach_volumes: " ++ args.attach_volumes]) := by
  have hne : args.attach_volumes ≠ "" := by
    intro h0
    rw [h0] at h
    have h1 : (pySplit "" ',').length = 1 := rfl
    omega
  by_cases hlen : args.attach_volumes.length > 11
  · unfold StartAnalysisVm
    rw [if_pos ⟨hne, hlen⟩]
    exact ⟨rfl, Or.inl rfl⟩
  · have hnotall : ¬(pySplit args.attach_volumes ',' ≠ [] ∧
        ∀ e ∈ pySplit args.attach_volumes ',', e ≠ "") := by
      rintro ⟨-, hall⟩
      have h6 := pySplit_count_le_six (by omega) hall
      omega
    unfold StartAnalysisVm
    rw [if_neg (fun hx => hlen hx.2), if_pos ⟨hne, hnotall⟩]
    exact ⟨rfl, Or.inr rfl⟩

theorem startAnalysisVm_rejects_eleven_entries_witness :
    (StartAnalysisVm
        { instance_name := "vm", zone := "us-east-1a", disk_size := "50",
          cpu_cores := "2", ami := "ami-0123", ssh_key_name := "key",
          attach_volumes := "a,a,a,a,a,a,a,a,a,a,a" }).outcome = .earlyReturn ∧
      ((StartAnalysisVm
          { instance_name := "vm", zone := "us-east-1a", disk_size := "50",
            cpu_cores := "2", ami := "ami-0123", ssh_key_name := "key",
            attach_volumes := "a,a,a,a,a,a,a,a,a,a,a" }).prints =
          ["error: --attach_volumes must be < 11"] ∨
        (StartAnalysisVm
            { instance_name := "vm", zone := "us-east-1a", disk_size := "50",
              cpu_cores := "2", ami := "ami-0123", ssh_key_name := "key",
              attach_volumes := "a,a,a,a,a,a,a,a,a,a,a" }).prints =
          ["error: parameter --attach_volumes: " ++
            ({ instance_name := "vm", zone := "us-east-1a", disk_size := "50",
               cpu_cores := "2", ami := "ami-0123", ssh_key_name := "key",
               attach_volumes := "a,a,a,a,a,a,a,a,a,a,a" : StartVmArgs}).attach_volumes]) :=
  startAnalysisVm_rejects_eleven_entries
    { instance_name := "vm", zone := "us-east-1a", disk_size := "50",
      cpu_cores := "2", ami := "ami-0123", ssh_key_name := "key",
      attach_volumes := "a,a,a,a,a,a,a,a,a,a,a" } (by decide)

/-- Claim C4: a supplied attach_volumes argument one of whose
comma-separated entries is empty always makes the handler print one of its
two error messages and return early, before the external VM-start call. -/
theorem startAnalysisVm_rejects_empty_entry (args : StartVmArgs)
    (hne : args.attach_volumes ≠ "")
    (hmem : "" ∈ pySplit args.attach_volumes ',') :
    (StartAnalysisVm args).outcome = .earlyReturn ∧
      ((StartAnalysisVm args).prints = ["error: --attach_volumes must be < 11"] ∨
        (StartAnalysisVm args).prints =
          ["error: parameter --attach_volumes: " ++ args.attach_volumes]) := by
  by_cases hlen : args.attach_volumes.length > 11
  · unfold StartAnalysisVm
    rw [if_pos ⟨hne, hlen⟩]
    exact ⟨rfl, Or.inl rfl⟩
  · have hnotall : ¬(pySplit args.attach_volumes ',' ≠ [] ∧
        ∀ e ∈ pySplit args.attach_volumes ',', e ≠ "") := by
      rintro ⟨-, hall⟩
      exact hall "" hmem rfl
    unfold StartAnalysisVm
    rw [if_neg (fun hx => hlen hx.2), if_pos ⟨hne, hnotall⟩]
    exact ⟨rfl, Or.inr rfl⟩

theorem startAnalysisVm_rejects_empty_entry_witness :
    (StartAnalysisVm
        { instance_name := "vm", zone := "us-east-1a", disk_size := "50",
          cpu_cores := "2", ami := "ami-0123", ssh_key_name := "key",
          attach_volumes := "vol-1,,vol-2" }).outcome = .earlyReturn ∧
      ((StartAnalysisVm
          { instance_name := "vm", zone := "us-east-1a", disk_size := "50",
            cpu_cores := "2", ami := "ami-0123", ssh_key_name := "key",
            attach_volumes := "vol-1,,vol-2" }).prints =
          ["error: --attach_volumes must be < 11"] ∨
        (StartAnalysisVm
            { instance_name := "vm", zone := "us-east-1a", disk_size := "50",
              cpu_cores := "2", ami := "ami-0123", ssh_key_name := "key",
              attach_volumes := "vol-1,,vol-2" }).prints =
          ["error: parameter --attach_volumes: " ++
            ({ instance_name := "vm", zone := "us-east-1a", disk_size := "50",
               cpu_cores := "2", ami := "ami-0123", ssh_key_name := "key",
               attach_volumes := "vol-1,,vol-2" : StartVmArgs}).attach_volumes]) :=
  startAnalysisVm_rejects_empty_entry
    { instance_name := "vm", zone := "us-east-1a", disk_size := "50",
      cpu_cores := "2", ami := "ami-0123", ssh_key_name := "key",
      attach_volumes := "vol-1,,vol-2" } (by decide) (by decide)

/-- Claim C5: with attach_volumes exactly v1,v2,v3 the handler is accepted
and forwards the attachment pairs (v1, /dev/sdf), (v2, /dev/sdg),
(v3, /dev/sdh) — in input order — to the external VM-start operation. -/
theorem startAnalysisVm_three_volumes_devices :
    StartAnalysisVm
        { instance_name := "analysis-vm", zone := "us-east-1a",
          disk_size := "50", cpu_cores := "2", ami := "ami-0123",
          ssh_key_name := "key", attach_volumes := "v1,v2,v3" } =
      { prints := ["Starting analysis VM..."],
        outcome := .call
          { vm_name := "analysis-vm", default_availability_zone := "us-east-1a",
            boot_volume_size := 50, cpu_cores := 2, ami := "ami-0123",
            ssh_key_name := "key",
            attach_volumes :=
              [("v1", "/dev/sdf"), ("v2", "/dev/sdg"), ("v3", "/dev/sdh")] } } := by
  decide

/-- Claim C6: every attachment pair the handler forwards to the external
VM-start operation carries a device name within /dev/sdf .. /dev/sdp.
(The raw-string length guard caps accepted inputs at 11 characters, hence
at most 6 nonempty entries, so the letters never pass /dev/sdk, well inside
the claimed range.) -/
theorem startAnalysisVm_devices_in_range (args : StartVmArgs) (c : StartVmCall)
    (hc : (StartAnalysisVm args).outcome = .call c) :
    ∀ p ∈ c.attach_volumes, p.2 ∈ deviceNames := by
  unfold StartAnalysisVm at hc
  by_cases h1 : args.attach_volumes ≠ "" ∧ args.attach_volumes.length > 11
  · rw [if_pos h1] at hc
    exact absurd hc (by simp)
  rw [if_neg h1] at hc
  by_cases h2 : args.attach_volumes ≠ "" ∧
      ¬(pySplit args.attach_volumes ',' ≠ [] ∧
        ∀ e ∈ pySplit args.attach_volumes ',', e ≠ "")
  · rw [if_pos h2] at hc
    exact absurd hc (by simp)
  rw [if_neg h2] at hc
  cases hd : pyInt args.disk_size with
  | none =>
    rw [hd] at hc
    exact absurd hc (by cases pyInt args.cpu_cores <;> simp)
  | some d =>
    cases hcc : pyInt args.cpu_cores with
    | none =>
      rw [hd, hcc] at hc
      exact absurd hc (by simp)
    | some cc =>
      rw [hd, hcc] at hc
      simp only [VmOutcome.call.injEq] at hc
      subst hc
      intro p hp
      by_cases h0 : args.attach_volumes = ""
      · simp [h0] at hp
      · rw [if_pos h0] at hp
        have hboth := not_not.mp (fun hnb => h2 ⟨h0, hnb⟩)
        have hlen : args.attach_volumes.length ≤ 11 := by
          by_contra hx
          exact h1 ⟨h0, by omega⟩
        have hcount := pySplit_count_le_six hlen hboth.2
        rcases assignDevices_mem 102 _ p hp with ⟨k, hk1, hk2, hk3⟩
        rw [hk3]
        have hk6 : k < 108 := by omega
        interval_cases k <;> decide

theorem startAnalysisVm_devices_in_range_witness :
    (("v1", "/dev/sdf") : String × String).2 ∈ deviceNames :=
  startAnalysisVm_devices_in_range
    { instance_name := "vm", zone := "us-east-1a", disk_size := "50",
      cpu_cores := "2", ami := "ami-0123", ssh_key_name := "key",
      attach_volumes := "v1,v2" }
    { vm_name := "vm", default_availability_zone := "us-east-1a",
      boot_volume_size := 50, cpu_cores := 2, ami := "ami-0123",
      ssh_key_name := "key",
      attach_volumes := [("v1", "/dev/sdf"), ("v2", "/dev/sdg")] }
    (by decide) ("v1", "/dev/sdf") (by decide)

/-- Claim C7: with none of filter, start and end supplied, QueryLogs calls
the external lookup with an empty parameter bag; with only
start = 2020-01-01 00:00:00 supplied, it calls it with exactly the parsed
start time and no other parameter. -/
theorem queryLogs_param_bag (zone : String) :
    QueryLogs { zone := zone, filter := "", start := "", end_ := "" } =
      .ok
        { zone := zone,
          params := { qfilter := none, starttime := none, endtime := none } } ∧
    QueryLogs
        { zone := zone, filter := "", start := "2020-01-01 00:00:00",
          end_ := "" } =
      .ok
        { zone := zone,
          params :=
            { qfilter := none, starttime := some ⟨2020, 1, 1, 0, 0, 0⟩,
              endtime := none } } :=
  ⟨rfl, rfl⟩

theorem queryLogs_param_bag_witness :
    QueryLogs { zone := "us-east-1a", filter := "", start := "", end_ := "" } =
      .ok
        { zone := "us-east-1a",
          params := { qfilter := none, starttime := none, endtime := none } } ∧
    QueryLogs
        { zone := "us-east-1a", filter := "", start := "2020-01-01 00:00:00",
          end_ := "" } =
      .ok
        { zone := "us-east-1a",
          params :=
            { qfilter := none, starttime := some ⟨2020, 1, 1, 0, 0, 0⟩,
              endtime := none } } :=
  queryLogs_param_bag "us-east-1a"

/-- Claim C8: a supplied well-formed JSON object string in the tags
argument is parsed and forwarded as the equivalent key-value mapping in
the tags parameter of the external volume-copy call, and an absent or
empty tags argument leaves the forwarded tags parameter at None. -/
theorem createVolumeCopy_tags_forwarding (args : CreateVolumeCopyArgs)
    (m : List (String × String)) :
    (args.tags ≠ "" → jsonLoadsObj args.tags = some m →
      (CreateVolumeCopy args).2 = .ok
        { zone := args.zone, dst_zone := args.dst_zone,
          instance_id := args.instance_id, volume_id := args.volume_id,
          src_profile := args.src_profile, dst_profile := args.dst_profile,
          tags := some m }) ∧
    (args.tags = "" →
      (CreateVolumeCopy args).2 = .ok
        { zone := args.zone, dst_zone := args.dst_zone,
          instance_id := args.instance_id, volume_id := args.volume_id,
          src_profile := args.src_profile, dst_profile := args.dst_profile,
          tags := none }) := by
  constructor
  · intro hne hp
    simp [CreateVolumeCopy, hne, hp]
  · intro h0
    simp [CreateVolumeCopy, h0]

theorem createVolumeCopy_tags_forwarding_witness :
    (CreateVolumeCopy
        { zone := "us-east-1a", dst_zone := "us-west-2a", instance_id := "i-1",
          volume_id := "", src_profile := "", dst_profile := "",
          tags := "\x7b\"project\":\"forensics\"\x7d" }).2 =
      .ok
        { zone := "us-east-1a", dst_zone := "us-west-2a", instance_id := "i-1",
          volume_id := "", src_profile := "", dst_profile := "",
          tags := some [("project", "forensics")] } ∧
    (CreateVolumeCopy
        { zone := "us-east-1a", dst_zone := "us-west-2a", instance_id := "i-1",
          volume_id := "", src_profile := "", dst_profile := "",
          tags := "" }).2 =
      .ok
        { zone := "us-east-1a", dst_zone := "us-west-2a", instance_id := "i-1",
          volume_id := "", src_profile := "", dst_profile := "",
          tags := none } :=
  ⟨(createVolumeCopy_tags_forwarding _ [("project", "forensics")]).1
      (by decide) (by decide),
    (createVolumeCopy_tags_forwarding _ []).2 rfl⟩

/-- Claim C9: a supplied start or end argument that the fixed timestamp
format cannot parse makes QueryLogs propagate the ValueError unhandled:
the handler result is the error itself — no caught exception, no locally
printed message, and no downstream lookup call (which only an ok result
carries). -/
theorem queryLogs_bad_timestamp_propagates :
    (∀ args : QueryLogsArgs, args.start ≠ "" → pyStrptime args.start = none →
      QueryLogs args = .error ("ValueError: time data " ++ args.start ++
        " does not match format %Y-%m-%d %H:%M:%S")) ∧
    (∀ args : QueryLogsArgs, args.end_ ≠ "" → pyStrptime args.end_ = none →
      exceptIsError (QueryLogs args) = true) := by
  constructor
  · intro args hne hparse
    simp [QueryLogs, hne, strptimeExc, hparse, Except.map]
  · intro args hne hparse
    unfold QueryLogs
    cases hs : (if args.start ≠ "" then Except.map some (strptimeExc args.start)
        else .ok none) with
    | error e => rfl
    | ok v =>
      rw [if_pos hne]
      simp [strptimeExc, hparse, Except.map, exceptIsError]

theorem queryLogs_bad_timestamp_propagates_witness :
    QueryLogs
        { zone := "us-east-1a", filter := "", start := "2020-99-99 00:00:00",
          end_ := "" } =
      .error ("ValueError: time data " ++ "2020-99-99 00:00:00" ++
        " does not match format %Y-%m-%d %H:%M:%S") ∧
    exceptIsError (QueryLogs
        { zone := "us-east-1a", filter := "", start := "",
          end_ := "not-a-date" }) = true :=
  ⟨queryLogs_bad_timestamp_propagates.1 _ (by decide) (by decide),
    queryLogs_bad_timestamp_propagates.2 _ (by decide) (by decide)⟩

/-- Claim C10: with attach_volumes absent or empty, no validation error is
reported and the external VM-start operation is called with an empty
attachment list, every other supplied parameter forwarded in place
(disk_size and cpu_cores through the int() conversion the source applies
at the call site). -/
theorem startAnalysisVm_no_volumes (args : StartVmArgs) (d cc : Int)
    (h0 : args.attach_volumes = "") (hd : pyInt args.disk_size = some d)
    (hcc : pyInt args.cpu_cores = some cc) :
    StartAnalysisVm args =
      { prints := ["Starting analysis VM..."],
        outcome := .call
          { vm_name := args.instance_name,
            default_availability_zone := args.zone, boot_volume_size := d,
            cpu_cores := cc, ami := args.ami,
            ssh_key_name := args.ssh_key_name, attach_volumes := [] } } := by
  unfold StartAnalysisVm
  rw [if_neg (fun hx => hx.1 h0), if_neg (fun hx => hx.1 h0), hd, hcc]
  simp [h0]

theorem startAnalysisVm_no_volumes_witness :
    StartAnalysisVm
        { instance_name := "analysis-vm", zone := "us-east-1a",
          disk_size := "50", cpu_cores := "2", ami := "ami-0123",
          ssh_key_name := "key", attach_volumes := "" } =
      { prints := ["Starting analysis VM..."],
        outcome := .call
          { vm_name := "analysis-vm",
            default_availability_zone := "us-east-1a", boot_volume_size := 50,
            cpu_cores := 2, ami := "ami-0123", ssh_key_name := "key",
            attach_volumes := [] } } :=
  startAnalysisVm_no_volumes _ 50 2 rfl (by decide) (by decide)

end AwsCli
